import Mathlib

/-!
# Verification of the cvx agent core

Shallow embedding of `src/agent/cvx_agent/agents.py`, `src/agent/cvx_agent/main.py`
and `src/agent/run.py`, plus spec-modelled definitions for the cache layer
(`hash_input`, the cache-enabled build handler) and the structured-output schema
(`cvx_agent.models.Model`), which this source snapshot references (its tests import
`hash_input`) but does not contain.

Python dicts are embedded as association lists with unique keys; JSON values as an
inductive `Json`; the provider (pydantic-ai `agent.run_sync`) as an oracle function;
exceptions as `Except`.
-/

/-- JSON-compatible values, as handled by Python's `json` module (numbers
restricted to integers, which is all this agent's payloads use). -/
inductive Json where
  | null : Json
  | bool (b : Bool) : Json
  | num (n : Int) : Json
  | str (s : String) : Json
  | arr (xs : List Json) : Json
  | obj (kvs : List (String × Json)) : Json

/-- A request payload: a Python dict of string keys to JSON values,
embedded as an association list (unique keys). -/
abbrev Request := List (String × Json)

/-- Python `dict.get(k)`: the value bound to the key, if present.
Association lists representing dicts have unique keys, so first-match
agrees with the dict semantics. -/
def lookupKey (k : String) : List (String × Json) → Option Json
  | [] => none
  | (k', v) :: rest => if k = k' then some v else lookupKey k rest

/-- The keys of an association list in order. -/
def keysOf (l : List (String × Json)) : List String := l.map Prod.fst

/-- Escape a character for a JSON string literal (quote and backslash;
the payloads in scope need no further escapes). -/
def escChar (c : Char) : List Char :=
  if c = '"' then ['\\', '"']
  else if c = '\\' then ['\\', '\\']
  else [c]

/-- JSON string literal for `s`. -/
def quoteStr (s : String) : String :=
  "\"" ++ String.mk (s.toList.flatMap escChar) ++ "\""

/-- Order on key-value pairs by key, used to canonicalize an object
(`sort_keys=True` in `json.dumps`). -/
def keyLe (p q : String × Json) : Prop := p.1 ≤ q.1

instance : DecidableRel keyLe := fun p q => inferInstanceAs (Decidable (p.1 ≤ q.1))

instance : IsTotal (String × Json) keyLe := ⟨fun p q => le_total p.1 q.1⟩

instance : IsTrans (String × Json) keyLe := ⟨fun _ _ _ h h' => le_trans h h'⟩

/-- Sort the fields of an object by key. -/
def sortPairs (kvs : List (String × Json)) : List (String × Json) :=
  List.insertionSort keyLe kvs

mutual
/-- Serialize a JSON value (compact form, as the canonical serialization
underlying the cache key uses). -/
def serializeJson : Json → String
  | .null => "null"
  | .bool b => if b then "true" else "false"
  | .num n => toString n
  | .str s => quoteStr s
  | .arr xs => "[" ++ serializeArr xs ++ "]"
  | .obj kvs => "\x7b" ++ serializeFields kvs ++ "\x7d"

/-- Serialize the elements of a JSON array, comma-separated. -/
def serializeArr : List Json → String
  | [] => ""
  | [x] => serializeJson x
  | x :: y :: rest => serializeJson x ++ "," ++ serializeArr (y :: rest)

/-- Serialize the fields of a JSON object, comma-separated. -/
def serializeFields : List (String × Json) → String
  | [] => ""
  | [(k, v)] => quoteStr k ++ ":" ++ serializeJson v
  | (k, v) :: p :: rest =>
      quoteStr k ++ ":" ++ serializeJson v ++ "," ++ serializeFields (p :: rest)
end

/-! ## SHA-256 over byte lists (for the cache key digest) -/

/-- Truncate to a 32-bit word. -/
def mod32 (x : Nat) : Nat := x % 4294967296

/-- 32-bit right rotation. -/
def rotr (x n : Nat) : Nat := mod32 ((x >>> n) ||| (x <<< (32 - n)))

/-- SHA-256 Ch function. -/
def chFn (x y z : Nat) : Nat := (x &&& y) ^^^ ((x ^^^ 4294967295) &&& z)

/-- SHA-256 Maj function. -/
def majFn (x y z : Nat) : Nat := (x &&& y) ^^^ (x &&& z) ^^^ (y &&& z)

/-- SHA-256 Σ0. -/
def bsig0 (x : Nat) : Nat := rotr x 2 ^^^ rotr x 13 ^^^ rotr x 22

/-- SHA-256 Σ1. -/
def bsig1 (x : Nat) : Nat := rotr x 6 ^^^ rotr x 11 ^^^ rotr x 25

/-- SHA-256 σ0. -/
def ssig0 (x : Nat) : Nat := rotr x 7 ^^^ rotr x 18 ^^^ (x >>> 3)

/-- SHA-256 σ1. -/
def ssig1 (x : Nat) : Nat := rotr x 17 ^^^ rotr x 19 ^^^ (x >>> 10)

/-- SHA-256 round constants. -/
def kConst : List Nat :=
  [1116352408, 1899447441, 3049323471, 3921009573, 961987163,
   1508970993, 2453635748, 2870763221, 3624381080, 310598401,
   607225278, 1426881987, 1925078388, 2162078206, 2614888103,
   3248222580, 3835390401, 4022224774, 264347078, 604807628,
   770255983, 1249150122, 1555081692, 1996064986, 2554220882,
   2821834349, 2952996808, 3210313671, 3336571891, 3584528711,
   113926993, 338241895, 666307205, 773529912, 1294757372,
   1396182291, 1695183700, 1986661051, 2177026350, 2456956037,
   2730485921, 2820302411, 3259730800, 3345764771, 3516065817,
   3600352804, 4094571909, 275423344, 430227734, 506948616,
   659060556, 883997877, 958139571, 1322822218, 1537002063,
   1747873779, 1955562222, 2024104815, 2227730452, 2361852424,
   2428436474, 2756734187, 3204031479, 3329325298]

/-- Big-endian byte expansion of `v` into `n` bytes. -/
def beBytes : Nat → Nat → List Nat
  | 0, _ => []
  | n + 1, v => beBytes n (v / 256) ++ [v % 256]

/-- SHA-256 message padding: append 0x80, zero bytes to 56 mod 64, then the
bit length as 8 big-endian bytes. -/
def padMessage (msg : List Nat) : List Nat :=
  let L := msg.length
  let z := (120 - (L + 1) % 64) % 64
  msg ++ [0x80] ++ List.replicate z 0 ++ beBytes 8 (8 * L)

/-- Split a byte list into 64-byte blocks. -/
def chunks64 (bs : List Nat) : List (List Nat) :=
  if h : bs = [] then []
  else bs.take 64 :: chunks64 (bs.drop 64)
termination_by bs.length
decreasing_by
  simp only [List.length_drop]
  have : 0 < bs.length := List.length_pos.mpr h
  omega

/-- Combine consecutive groups of four bytes into big-endian 32-bit words. -/
def bytesToWords : List Nat → List Nat
  | b0 :: b1 :: b2 :: b3 :: rest =>
      (((b0 * 256 + b1) * 256 + b2) * 256 + b3) :: bytesToWords rest
  | _ => []

/-- Extend a 16-word block by `n` further schedule words. -/
def extendWs : List Nat → Nat → List Nat
  | ws, 0 => ws
  | ws, n + 1 =>
      let t := mod32 (ssig1 (ws.getD (ws.length - 2) 0) + ws.getD (ws.length - 7) 0 +
                      ssig0 (ws.getD (ws.length - 15) 0) + ws.getD (ws.length - 16) 0)
      extendWs (ws ++ [t]) n

/-- The eight 32-bit words of SHA-256 working state. -/
structure Sha8 where
  a : Nat
  b : Nat
  c : Nat
  d : Nat
  e : Nat
  f : Nat
  g : Nat
  h : Nat

/-- SHA-256 initial hash value. -/
def hInit : Sha8 :=
  ⟨1779033703, 3144134277, 1013904242, 2773480762, 1359893119, 2600822924, 528734635, 1541459225⟩

/-- One SHA-256 compression round for round constant and schedule word `kw`. -/
def shaRound (st : Sha8) (kw : Nat × Nat) : Sha8 :=
  let t1 := mod32 (st.h + bsig1 st.e + chFn st.e st.f st.g + kw.1 + kw.2)
  let t2 := mod32 (bsig0 st.a + majFn st.a st.b st.c)
  ⟨mod32 (t1 + t2), st.a, st.b, st.c, mod32 (st.d + t1), st.e, st.f, st.g⟩

/-- Compress one 64-byte block into the running hash. -/
def processBlock (hs : Sha8) (block : List Nat) : Sha8 :=
  let ws := extendWs (bytesToWords block) 48
  let st := (List.zip kConst ws).foldl shaRound hs
  ⟨mod32 (hs.a + st.a), mod32 (hs.b + st.b), mod32 (hs.c + st.c), mod32 (hs.d + st.d),
   mod32 (hs.e + st.e), mod32 (hs.f + st.f), mod32 (hs.g + st.g), mod32 (hs.h + st.h)⟩

/-- SHA-256 digest of a byte list, as eight 32-bit words. -/
def sha256Words (msg : List Nat) : Sha8 :=
  (chunks64 (padMessage msg)).foldl processBlock hInit

/-- Lowercase hexadecimal digits. -/
def hexChars : List Char := "0123456789abcdef".toList

/-- Lowercase hex digit of `n % 16`. -/
def hexDigit (n : Nat) : Char :=
  hexChars.get ⟨n % 16, by
    have h16 : hexChars.length = 16 := rfl
    omega⟩

/-- Eight lowercase hex digits of a 32-bit word, most significant first. -/
def hexWord (w : Nat) : List Char :=
  [hexDigit (w / 268435456), hexDigit (w / 16777216), hexDigit (w / 1048576),
   hexDigit (w / 65536), hexDigit (w / 4096), hexDigit (w / 256), hexDigit (w / 16), hexDigit w]

/-- SHA-256 digest as a 64-character lowercase hex string. -/
def sha256Hex (msg : List Nat) : String :=
  let s := sha256Words msg
  String.mk (hexWord s.a ++ hexWord s.b ++ hexWord s.c ++ hexWord s.d ++
             hexWord s.e ++ hexWord s.f ++ hexWord s.g ++ hexWord s.h)

/-- UTF-8 bytes of a string. -/
def strBytes (s : String) : List Nat := s.toUTF8.data.toList.map UInt8.toNat

/-- Modelled from the spec: `hash_input` from `cvx_agent.agents` (imported by
`test_agents.py` but absent from this source snapshot). Per §4.4, it
canonical-serializes the request with its keys sorted and digests with a
256-bit-class cryptographic hash (SHA-256 per the test comment), yielding a
fixed-length lowercase hex string. -/
def hash_input (r : Request) : String :=
  sha256Hex (strBytes (serializeJson (Json.obj (sortPairs r))))

/-! ## Configuration and retry/fallback loop (agents.py lines 23-24, 66-75) -/

/-- An environment, i.e. `os.getenv`. -/
abbrev Env := String → Option String

/-- `PRIMARY_MODEL = os.getenv("AI_MODEL", "gemini-2.5-flash")` (agents.py line 23). -/
def PRIMARY_MODEL (env : Env) : String := (env "AI_MODEL").getD "gemini-2.5-flash"

/-- `FALLBACK_MODEL = os.getenv("AI_FALLBACK_MODEL", "gemini-2.5-flash")` (agents.py line 24). -/
def FALLBACK_MODEL (env : Env) : String := (env "AI_FALLBACK_MODEL").getD "gemini-2.5-flash"

/-- The inner retry loop of `run_with_fallback` (agents.py lines 69-73): attempt
`f` on model `m` up to `retries` times, swallowing each failure. `f` receives the
model name and the global call index; `calls` counts provider calls made so far
and each attempt consumes one. Returns the first success, if any. -/
def attemptModel {α : Type} (f : String → Nat → Except String α) (m : String) :
    Nat → Nat → Option α × Nat
  | 0, calls => (none, calls)
  | r + 1, calls =>
      match f m calls with
      | .ok a => (some a, calls + 1)
      | .error _ => attemptModel f m r (calls + 1)

/-- `run_with_fallback` (agents.py lines 66-75), generalized over the model list
it iterates (the source iterates `[PRIMARY_MODEL, FALLBACK_MODEL]`): for each
model in order run the retry loop; return immediately on the first success;
after exhausting every model raise `RuntimeError("All AI attempts failed")`.
The result is paired with the total provider call count. -/
def runWithFallback {α : Type} (f : String → Nat → Except String α) :
    List String → Nat → Nat → Except String α × Nat
  | [], _, calls => (.error "All AI attempts failed", calls)
  | m :: rest, maxRetries, calls =>
      match attemptModel f m maxRetries calls with
      | (some a, c) => (.ok a, c)
      | (none, c) => runWithFallback f rest maxRetries c

/-- `run_with_fallback(action_fn)` exactly as the source calls it: model list
`[PRIMARY_MODEL, FALLBACK_MODEL]` and the default `max_retries = 2`. -/
def run_with_fallback {α : Type} (env : Env) (f : String → Nat → Except String α)
    (calls : Nat) : Except String α × Nat :=
  runWithFallback f [PRIMARY_MODEL env, FALLBACK_MODEL env] 2 calls

/-! ## Content-addressed cache and the cached build handler (spec §4.4) -/

/-- The flat-file cache, a map from hex cache key to stored entry, embedded as an
association list; a write prepends and a read takes the most recent write, so
overwriting an existing key is permitted. -/
abbrev Cache := List (String × Json)

/-- `store(key, entry)` (spec §4.4). -/
def storeCache (key : String) (v : Json) (c : Cache) : Cache := (key, v) :: c

/-- Modelled from the spec: the cache-enabled variant of `build_cv_and_letter`
(spec §4.4 cache policy; `test_agents.py` exercises this variant via `hash_input`
but this snapshot's `agents.py` lacks it). On entry compute `hash_input` of the
request and attempt a lookup; a hit returns the entry immediately with zero
provider calls; a miss runs the retry/fallback loop of agents.py lines 66-75 and,
on success, stores the result under the key before returning it. `provider` is
the build action as a function of the global provider call index; the state
threads the cache and the total provider call count. -/
def build_cached (env : Env) (provider : Nat → Except String Json) (req : Request) :
    Cache × Nat → Except String Json × (Cache × Nat)
  | (cache, calls) =>
    let key := hash_input req
    match lookupKey key cache with
    | some entry => (.ok entry, (cache, calls))
    | none =>
        match run_with_fallback env (fun _ i => provider i) calls with
        | (.ok v, c) => (.ok v, (storeCache key v cache, c))
        | (.error e, c) => (.error e, (cache, c))

/-! ## Model selection (agents.py lines 43-63) -/

/-- Python's `str.lower()` on the character list (ASCII case folding, as
`model_name.lower()` performs on these model names). -/
def strLower (s : String) : String := String.mk (s.toList.map Char.toLower)

/-- Whether the first character list starts with the second. -/
def leadsWith : List Char → List Char → Bool
  | _, [] => true
  | [], _ :: _ => false
  | a :: as, b :: bs => a = b && leadsWith as bs

/-- Whether the first character list contains the second as a contiguous run. -/
def containsSeq : List Char → List Char → Bool
  | [], pat => leadsWith [] pat
  | s@(_ :: rest), pat => leadsWith s pat || containsSeq rest pat

/-- Python's `sub in s` on strings. -/
def strContains (s sub : String) : Bool := containsSeq s.toList sub.toList

/-- The four provider families `get_model` can return a model of. -/
inductive ModelFamily where
  | groq
  | google
  | anthropic
  | openai
deriving DecidableEq

/-- The Groq keyword list (agents.py line 51). -/
def groqKeywords : List String := ["openai/", "qwen/", "llama", "mixtral", "groq"]

/-- The Google keyword list (agents.py line 55). -/
def googleKeywords : List String := ["gemini", "flash", "pro"]

/-- The Anthropic keyword list (agents.py line 59). -/
def anthropicKeywords : List String := ["claude", "sonnet", "opus", "haiku"]

/-- `any(x in model_name_lower for x in kws)`. -/
def matchesFamily (kws : List String) (l : String) : Bool :=
  kws.any (fun x => strContains l x)

/-- `get_model` (agents.py lines 43-63): lowercase the name, then test the
family keyword lists in order — Groq, Google, Anthropic — and default to the
OpenAI-compatible family. The handle is the family together with the literal
model name. -/
def get_model (model_name : String) : ModelFamily × String :=
  let l := strLower model_name
  if matchesFamily groqKeywords l then
    (.groq, model_name)
  else if matchesFamily googleKeywords l then
    (.google, model_name)
  else if matchesFamily anthropicKeywords l then
    (.anthropic, model_name)
  else
    (.openai, model_name)

/-! ## Dispatcher (agents.py lines 188-206) -/

/-- Python `==` between a decoded JSON value and a Python string literal:
true exactly for a JSON string with the same content. -/
def Json.eqStr : Json → String → Bool
  | .str t, s => t = s
  | _, _ => false

/-- The dispatcher's error: `ValueError(f"Unknown action: {action}")`
(agents.py line 206), carrying the offending action value. -/
inductive AgentError where
  | invalidAction (v : Json)

/-- `dispatch` (agents.py lines 188-206), with the three handlers it routes to
abstracted as `hb`/`he`/`ha`: read `input_data.get("action", "build")`, compare
it against the three literals in order, call exactly the matching handler, and
raise `ValueError` naming any other value. -/
def dispatch {α : Type} (hb he ha : Request → α) (input_data : Request) :
    Except AgentError α :=
  let action := (lookupKey "action" input_data).getD (Json.str "build")
  if action.eqStr "build" then .ok (hb input_data)
  else if action.eqStr "extract" then .ok (he input_data)
  else if action.eqStr "advise" then .ok (ha input_data)
  else .error (.invalidAction action)

/-! ## Process boundary (cvx_agent/main.py lines 7-21, run.py lines 5-19) -/

/-- Observable outcome of one process run: exit code, bytes written to
standard output, bytes written to standard error. -/
structure ProcOut where
  exitCode : Nat
  outBytes : String
  errBytes : String

/-- `main` (cvx_agent/main.py lines 7-21; run.py lines 5-19 is the same shape):
inside one try/except, parse stdin as JSON, run the dispatched computation, and
dump the result to stdout with exit 0; any exception — malformed input or a
handler failure — prints `Error: <e>` to stderr and exits 1, with nothing
written to stdout. `json.load` and the dispatched computation are the oracles
`parsed` and `handler`. -/
def mainProc (parsed : Except String Json) (handler : Json → Except String Json) : ProcOut :=
  match parsed with
  | .error e => ⟨1, "", "Error: " ++ e ++ "\n"⟩
  | .ok j =>
      match handler j with
      | .error e => ⟨1, "", "Error: " ++ e ++ "\n"⟩
      | .ok out => ⟨0, serializeJson out, ""⟩

/-! ## Structured output schema (cvx_agent/models.py, modelled from spec §4.5) -/

/-- Modelled from the spec: a contact block of the `Model` schema from
`cvx_agent.models` (absent from this snapshot); optional identity fields. -/
structure ContactInfo where
  name : Option String
  email : Option String
  phone : Option String

/-- Modelled from the spec: one CV section — an ordered list of free-form
entries under an optional title. -/
structure CvSection where
  title : Option String
  entries : List String

/-- Modelled from the spec: the `cv` aggregate — contact block plus an ordered
list of sections. -/
structure CvDoc where
  contact : ContactInfo
  sections : List CvSection

/-- Modelled from the spec: the letter's content block with
salutation/opening/closing. -/
structure LetterContent where
  salutation : Option String
  opening : Option String
  closing : Option String

/-- Modelled from the spec: the letter's metadata block. -/
structure MetaInfo where
  date : Option String

/-- Modelled from the spec: the `letter` aggregate — sender block, recipient
block, content block, metadata block. -/
structure LetterDoc where
  sender : ContactInfo
  recipient : ContactInfo
  content : LetterContent
  metadata : MetaInfo

/-- Modelled from the spec: the two-aggregate structured output schema `Model`
(`cv` + `letter`) that the build handler validates provider output against. -/
structure Model where
  cv : CvDoc
  letter : LetterDoc

/-- Pydantic dump of one optional string field: with `exclude_none` the unset
field is omitted; without it the unset field is emitted as an explicit JSON
null. -/
def dumpOptStr (excludeNone : Bool) (k : String) (v : Option String) :
    List (String × Json) :=
  match v with
  | some s => [(k, Json.str s)]
  | none => if excludeNone then [] else [(k, Json.null)]

/-- `model_dump` of a contact block. -/
def ContactInfo.dump (ex : Bool) (c : ContactInfo) : Json :=
  Json.obj (dumpOptStr ex "name" c.name ++ dumpOptStr ex "email" c.email ++
            dumpOptStr ex "phone" c.phone)

/-- `model_dump` of a CV section. -/
def CvSection.dump (ex : Bool) (s : CvSection) : Json :=
  Json.obj (dumpOptStr ex "title" s.title ++
            [("entries", Json.arr (s.entries.map Json.str))])

/-- `model_dump` of the `cv` aggregate. -/
def CvDoc.dump (ex : Bool) (d : CvDoc) : Json :=
  Json.obj [("contact", d.contact.dump ex),
            ("sections", Json.arr (d.sections.map (CvSection.dump ex)))]

/-- `model_dump` of the letter content block. -/
def LetterContent.dump (ex : Bool) (c : LetterContent) : Json :=
  Json.obj (dumpOptStr ex "salutation" c.salutation ++ dumpOptStr ex "opening" c.opening ++
            dumpOptStr ex "closing" c.closing)

/-- `model_dump` of the metadata block. -/
def MetaInfo.dump (ex : Bool) (m : MetaInfo) : Json :=
  Json.obj (dumpOptStr ex "date" m.date)

/-- `model_dump` of the `letter` aggregate. -/
def LetterDoc.dump (ex : Bool) (l : LetterDoc) : Json :=
  Json.obj [("sender", l.sender.dump ex), ("recipient", l.recipient.dump ex),
            ("content", l.content.dump ex), ("metadata", l.metadata.dump ex)]

/-- `model_dump(exclude_none=ex)` of the whole schema. -/
def Model.dump (ex : Bool) (m : Model) : Json :=
  Json.obj [("cv", m.cv.dump ex), ("letter", m.letter.dump ex)]

/-- The mapping `do_build` returns on success (agents.py lines 114-115):
`result.output.model_dump(exclude_none=False)`. -/
def do_build_output (m : Model) : Json := m.dump false

/-! ## Helper lemmas -/

/-- A successful attempt stops the retry loop after exactly one more call. -/
theorem attemptModel_ok {α : Type} (f : String → Nat → Except String α) (m : String)
    (r calls : Nat) (a : α) (hr : 0 < r) (h : f m calls = .ok a) :
    attemptModel f m r calls = (some a, calls + 1) := by
  cases r with
  | zero => omega
  | succ n => simp [attemptModel, h]

/-- If all `r` attempts on a model fail, the retry loop returns nothing and
consumes exactly `r` calls. -/
theorem attemptModel_allFail {α : Type} (f : String → Nat → Except String α) (m : String) :
    ∀ r calls, (∀ i, i < r → ∃ e, f m (calls + i) = .error e) →
      attemptModel f m r calls = (none, calls + r) := by
  intro r
  induction r with
  | zero => intro calls _; simp [attemptModel]
  | succ n ih =>
      intro calls h
      obtain ⟨e, he⟩ := h 0 (by omega)
      rw [Nat.add_zero] at he
      have hrest := ih (calls + 1) (fun i hi => by
        obtain ⟨e', he'⟩ := h (i + 1) (by omega)
        have hidx : calls + (i + 1) = calls + 1 + i := by omega
        exact ⟨e', by rw [← hidx]; exact he'⟩)
      simp only [attemptModel, he, hrest]
      congr 1
      omega

/-- If the oracle always fails, the fallback loop exhausts every model × retry
combination, raising the terminal error after exactly `models.length * r` calls. -/
theorem runWithFallback_allFail {α : Type} (f : String → Nat → Except String α)
    (h : ∀ m i, ∃ e, f m i = .error e) :
    ∀ (models : List String) (r calls : Nat),
      runWithFallback f models r calls =
        (.error "All AI attempts failed", calls + models.length * r) := by
  intro models
  induction models with
  | nil => intro r calls; simp [runWithFallback]
  | cons m rest ih =>
      intro r calls
      have ha := attemptModel_allFail f m r calls (fun i _ => h m (calls + i))
      simp only [runWithFallback, ha]
      rw [ih r (calls + r)]
      congr 1
      simp only [List.length_cons]
      ring

/-- A first-attempt success on the current model ends the whole invocation. -/
theorem runWithFallback_firstOk {α : Type} (f : String → Nat → Except String α)
    (m : String) (rest : List String) (r calls : Nat) (a : α)
    (hr : 0 < r) (h : f m calls = .ok a) :
    runWithFallback f (m :: rest) r calls = (.ok a, calls + 1) := by
  simp [runWithFallback, attemptModel_ok f m r calls a hr h]

/-- Reading a key just stored returns the stored entry. -/
theorem lookup_storeCache (k : String) (v : Json) (c : Cache) :
    lookupKey k (storeCache k v c) = some v := by
  simp [storeCache, lookupKey]

/-- C2: for every action function and model order, the invocation returns the
first successful result immediately with exactly one more call and no further
attempts; in particular, if the primary model fails on each of its `max_retries`
attempts and the fallback succeeds on its first attempt, the returned result is
the fallback's and exactly `max_retries + 1` calls to the action function were
made. -/
theorem run_with_fallback_ordering :
    (∀ (α : Type) (f : String → Nat → Except String α) (p q : String) (r : Nat) (a : α),
       0 < r → (∀ i, i < r → ∃ e, f p i = .error e) → f q r = .ok a →
       runWithFallback f [p, q] r 0 = (.ok a, r + 1)) ∧
    (∀ (α : Type) (f : String → Nat → Except String α) (m : String) (rest : List String)
       (r calls : Nat) (a : α),
       0 < r → f m calls = .ok a →
       runWithFallback f (m :: rest) r calls = (.ok a, calls + 1)) := by
  constructor
  · intro α f p q r a hr hp hq
    have h1 := attemptModel_allFail f p r 0 (fun i hi => by simpa using hp i hi)
    simp only [runWithFallback, h1]
    have h2 := attemptModel_ok f q r (0 + r) a hr (by simpa using hq)
    simp only [runWithFallback, h2]
    congr 1
    omega
  · intro α f m rest r calls a hr h
    exact runWithFallback_firstOk f m rest r calls a hr h

/-- Witness for C2: the primary fails both default retries, the fallback
succeeds at once; the result is the fallback's after 3 calls. -/
theorem run_with_fallback_ordering_witness :
    runWithFallback (fun name _ => if name = "fb" then Except.ok 7 else Except.error "boom")
      ["pm", "fb"] 2 0 = (Except.ok 7, 3) := by
  have h := run_with_fallback_ordering.1 Nat
      (fun name _ => if name = "fb" then Except.ok 7 else Except.error "boom") "pm" "fb" 2 7
      (by omega) (fun i _ => ⟨"boom", by simp⟩) (by simp)
  simpa using h

/-- C3: if every model × retry combination fails, the invocation raises
`RuntimeError("All AI attempts failed")` carrying no partial result, after
exactly `models.length * max_retries` attempts; and under an always-failing
provider the cached build handler leaves the cache unchanged (no result is
cached), raising the same error on a cache miss after the default 2 × 2 = 4
attempts. -/
theorem run_with_fallback_exhaustion :
    (∀ (α : Type) (f : String → Nat → Except String α) (models : List String) (r calls : Nat),
       (∀ m i, ∃ e, f m i = .error e) →
       runWithFallback f models r calls =
         (.error "All AI attempts failed", calls + models.length * r)) ∧
    (∀ (env : Env) (provider : Nat → Except String Json) (req : Request)
       (cache : Cache) (calls : Nat),
       (∀ i, ∃ e, provider i = .error e) →
       (build_cached env provider req (cache, calls)).2.1 = cache ∧
       (lookupKey (hash_input req) cache = none →
         (build_cached env provider req (cache, calls)).1 =
           Except.error "All AI attempts failed" ∧
         (build_cached env provider req (cache, calls)).2.2 = calls + 4)) := by
  constructor
  · intro α f models r calls h
    exact runWithFallback_allFail f h models r calls
  · intro env provider req cache calls h
    have hrun := runWithFallback_allFail (fun _ i => provider i) (fun m i => h i)
      [PRIMARY_MODEL env, FALLBACK_MODEL env] 2 calls
    cases hl : lookupKey (hash_input req) cache with
    | some entry =>
        constructor
        · simp [build_cached, hl]
        · intro hnone; simp at hnone
    | none =>
        constructor
        · simp [build_cached, hl, run_with_fallback, hrun]
        · intro _
          constructor
          · simp [build_cached, hl, run_with_fallback, hrun]
          · simp [build_cached, hl, run_with_fallback, hrun]

/-- Witness for C3: an always-failing provider over the two default models
makes exactly 4 attempts, raises the terminal error, and caches nothing. -/
theorem run_with_fallback_exhaustion_witness :
    runWithFallback (fun _ _ => (Except.error "down" : Except String Json)) ["pm", "fb"] 2 0 =
      (Except.error "All AI attempts failed", 4) ∧
    (build_cached (fun _ => none) (fun _ => Except.error "down") [] ([], 0)).2.1 = [] := by
  constructor
  · have h := run_with_fallback_exhaustion.1 Json
      (fun _ _ => (Except.error "down" : Except String Json))
      ["pm", "fb"] 2 0 (fun m i => ⟨"down", rfl⟩)
    simpa using h
  · exact (run_with_fallback_exhaustion.2 (fun _ => none) (fun _ => Except.error "down")
      [] [] 0 (fun i => ⟨"down", rfl⟩)).1

/-- C4: `dispatch` routes to exactly one of the three handlers when the action
value is the string "build", "extract" or "advise"; a request with no `action`
key takes the same route as one whose `action` is "build" (the build handler,
applied to the request as given); and any other action value fails with
`ValueError` naming the offending value, never silently defaulting. -/
theorem dispatch_routing :
    (∀ (α : Type) (hb he ha : Request → α) (input : Request),
       (lookupKey "action" input = some (Json.str "build") →
         dispatch hb he ha input = .ok (hb input)) ∧
       (lookupKey "action" input = some (Json.str "extract") →
         dispatch hb he ha input = .ok (he input)) ∧
       (lookupKey "action" input = some (Json.str "advise") →
         dispatch hb he ha input = .ok (ha input))) ∧
    (∀ (α : Type) (hb he ha : Request → α) (input : Request),
       lookupKey "action" input = none →
       dispatch hb he ha input = .ok (hb input) ∧
       dispatch hb he ha (("action", Json.str "build") :: input) =
         .ok (hb (("action", Json.str "build") :: input))) ∧
    (∀ (α : Type) (hb he ha : Request → α) (input : Request) (v : Json),
       lookupKey "action" input = some v →
       v.eqStr "build" = false → v.eqStr "extract" = false → v.eqStr "advise" = false →
       dispatch hb he ha input = .error (.invalidAction v)) := by
  refine ⟨fun α hb he ha input => ⟨fun h => ?_, fun h => ?_, fun h => ?_⟩,
          fun α hb he ha input h => ⟨?_, ?_⟩,
          fun α hb he ha input v h h1 h2 h3 => ?_⟩
  · simp [dispatch, h, Json.eqStr]
  · simp [dispatch, h, Json.eqStr]
  · simp [dispatch, h, Json.eqStr]
  · simp [dispatch, h, Json.eqStr]
  · simp [dispatch, lookupKey, Json.eqStr]
  · simp [dispatch, h, h1, h2, h3]

/-- Witness for C4: explicit "extract" routes to the extract handler; an
action-free request routes to the build handler; "frobnicate" raises the
unknown-action error naming it. -/
theorem dispatch_routing_witness :
    dispatch (fun _ => (0 : Nat)) (fun _ => 1) (fun _ => 2)
        [("action", Json.str "extract")] = .ok 1 ∧
    dispatch (fun _ => (0 : Nat)) (fun _ => 1) (fun _ => 2) [("x", Json.null)] = .ok 0 ∧
    dispatch (fun _ => (0 : Nat)) (fun _ => 1) (fun _ => 2)
        [("action", Json.str "frobnicate")] =
      .error (.invalidAction (Json.str "frobnicate")) := by
  refine ⟨?_, ?_, ?_⟩
  · exact (dispatch_routing.1 Nat (fun _ => 0) (fun _ => 1) (fun _ => 2)
      [("action", Json.str "extract")]).2.1 (by simp [lookupKey])
  · exact ((dispatch_routing.2.1 Nat (fun _ => 0) (fun _ => 1) (fun _ => 2)
      [("x", Json.null)]) (by simp [lookupKey])).1
  · exact dispatch_routing.2.2 Nat (fun _ => 0) (fun _ => 1) (fun _ => 2)
      [("action", Json.str "frobnicate")] (Json.str "frobnicate")
      (by simp [lookupKey]) (by simp [Json.eqStr]) (by simp [Json.eqStr]) (by simp [Json.eqStr])

/-- C10: an `action` key bound to JSON null is not treated as absent — the
dispatcher raises the unknown-action error naming the null value instead of
defaulting to the build handler; only a request with no `action` key at all
routes to the build handler by default. -/
theorem dispatch_null_action :
    (∀ (α : Type) (hb he ha : Request → α) (input : Request),
       lookupKey "action" input = some Json.null →
       dispatch hb he ha input = .error (.invalidAction Json.null)) ∧
    (∀ (α : Type) (hb he ha : Request → α) (input : Request),
       lookupKey "action" input = none →
       dispatch hb he ha input = .ok (hb input)) := by
  constructor
  · intro α hb he ha input h
    simp [dispatch, h, Json.eqStr]
  · intro α hb he ha input h
    simp [dispatch, h, Json.eqStr]

/-- Witness for C10: `action: null` raises the unknown-action error while the
same request without the key routes to the build handler. -/
theorem dispatch_null_action_witness :
    dispatch (fun _ => (0 : Nat)) (fun _ => 1) (fun _ => 2) [("action", Json.null)] =
      .error (.invalidAction Json.null) ∧
    dispatch (fun _ => (0 : Nat)) (fun _ => 1) (fun _ => 2) [] = .ok 0 := by
  constructor
  · exact dispatch_null_action.1 Nat (fun _ => 0) (fun _ => 1) (fun _ => 2)
      [("action", Json.null)] (by simp [lookupKey])
  · exact dispatch_null_action.2 Nat (fun _ => 0) (fun _ => 1) (fun _ => 2) [] rfl

/-- C8 counterexample: with both environment variables unset, the primary and
fallback defaults are the same model name, not two distinct ones. -/
theorem default_models_not_distinct :
    PRIMARY_MODEL (fun _ => none) = FALLBACK_MODEL (fun _ => none) ∧
    ¬ (PRIMARY_MODEL (fun _ => none) ≠ FALLBACK_MODEL (fun _ => none)) :=
  ⟨rfl, fun h => h rfl⟩

/-- C8 (amended): when `AI_MODEL` and `AI_FALLBACK_MODEL` are both unset, the
primary model defaults to the fixed name "gemini-2.5-flash" and the fallback
defaults to the same fixed name, so the default model order consists of two
equal model names. -/
theorem default_model_configuration (env : Env) (h1 : env "AI_MODEL" = none)
    (h2 : env "AI_FALLBACK_MODEL" = none) :
    PRIMARY_MODEL env = "gemini-2.5-flash" ∧ FALLBACK_MODEL env = "gemini-2.5-flash" ∧
    PRIMARY_MODEL env = FALLBACK_MODEL env := by
  refine ⟨?_, ?_, ?_⟩ <;> simp [PRIMARY_MODEL, FALLBACK_MODEL, h1, h2]

/-- Witness for C8 at the empty environment. -/
theorem default_model_configuration_witness :
    PRIMARY_MODEL (fun _ => none) = "gemini-2.5-flash" ∧
    FALLBACK_MODEL (fun _ => none) = "gemini-2.5-flash" ∧
    PRIMARY_MODEL (fun _ => none) = FALLBACK_MODEL (fun _ => none) :=
  default_model_configuration (fun _ => none) rfl rfl

/-- The family component of `get_model` as an explicit first-match-wins
cascade over the keyword lists. -/
theorem get_model_fst (s : String) :
    (get_model s).1 =
      (if matchesFamily groqKeywords (strLower s) then ModelFamily.groq
       else if matchesFamily googleKeywords (strLower s) then ModelFamily.google
       else if matchesFamily anthropicKeywords (strLower s) then ModelFamily.anthropic
       else ModelFamily.openai) := by
  by_cases h1 : matchesFamily groqKeywords (strLower s) <;>
    by_cases h2 : matchesFamily googleKeywords (strLower s) <;>
      by_cases h3 : matchesFamily anthropicKeywords (strLower s) <;>
        simp [get_model, h1, h2, h3]

/-- C5: `get_model` is a pure total function; it matches the lowercased name
against the ordered keyword families — Groq ("openai/", "qwen/", "llama",
"mixtral", "groq"), then Google ("gemini", "flash", "pro"), then Anthropic
("claude", "sonnet", "opus", "haiku"), then the OpenAI-compatible catch-all —
and when several families' keywords match, the first family in declaration
order wins; the returned handle carries the literal model name. -/
theorem get_model_selection :
    (∀ s t : String, (strLower s) = (strLower t) → (get_model s).1 = (get_model t).1) ∧
    (∀ s : String, (get_model s).2 = s) ∧
    (∀ s : String,
      ((get_model s).1 = ModelFamily.groq ↔ matchesFamily groqKeywords (strLower s) = true) ∧
      ((get_model s).1 = ModelFamily.google ↔
        (matchesFamily groqKeywords (strLower s) = false ∧
         matchesFamily googleKeywords (strLower s) = true)) ∧
      ((get_model s).1 = ModelFamily.anthropic ↔
        (matchesFamily groqKeywords (strLower s) = false ∧
         matchesFamily googleKeywords (strLower s) = false ∧
         matchesFamily anthropicKeywords (strLower s) = true)) ∧
      ((get_model s).1 = ModelFamily.openai ↔
        (matchesFamily groqKeywords (strLower s) = false ∧
         matchesFamily googleKeywords (strLower s) = false ∧
         matchesFamily anthropicKeywords (strLower s) = false))) := by
  refine ⟨fun s t h => ?_, fun s => ?_, fun s => ?_⟩
  · rw [get_model_fst s, get_model_fst t, h]
  · by_cases h1 : matchesFamily groqKeywords (strLower s) <;>
      by_cases h2 : matchesFamily googleKeywords (strLower s) <;>
        by_cases h3 : matchesFamily anthropicKeywords (strLower s) <;>
          simp [get_model, h1, h2, h3]
  · rw [get_model_fst s]
    by_cases h1 : matchesFamily groqKeywords (strLower s) <;>
      by_cases h2 : matchesFamily googleKeywords (strLower s) <;>
        by_cases h3 : matchesFamily anthropicKeywords (strLower s) <;>
          simp [h1, h2, h3]

/-- Witness for C5: case-insensitivity on a concrete pair, and the declaration
order deciding a name that matches both the Google and Anthropic keyword sets
("claude-flash") in favor of the earlier family. -/
theorem get_model_selection_witness :
    (get_model "LLAMA-3").1 = (get_model "llama-3").1 ∧
    (get_model "claude-flash").1 = ModelFamily.google := by
  constructor
  · exact get_model_selection.1 "LLAMA-3" "llama-3" (by decide)
  · exact ((get_model_selection.2.2 "claude-flash").2.1).mpr ⟨by decide, by decide⟩

/-- C7: every fatal error — input that does not parse as JSON, or a failure of
the dispatched computation — yields a non-zero exit status and a non-empty
diagnostic line on the error stream, with zero bytes written to the output
stream. -/
theorem main_failure_surface :
    (∀ (e : String) (handler : Json → Except String Json),
       (mainProc (.error e) handler).exitCode ≠ 0 ∧
       (mainProc (.error e) handler).outBytes = "" ∧
       (mainProc (.error e) handler).errBytes ≠ "") ∧
    (∀ (j : Json) (handler : Json → Except String Json) (e : String),
       handler j = .error e →
       (mainProc (.ok j) handler).exitCode ≠ 0 ∧
       (mainProc (.ok j) handler).outBytes = "" ∧
       (mainProc (.ok j) handler).errBytes ≠ "") := by
  have hne : ∀ e : String, ("Error: " ++ e ++ "\n") ≠ "" := by
    intro e hcon
    have hl := congrArg String.length hcon
    rw [String.length_append, String.length_append] at hl
    have h7 : ("Error: " : String).length = 7 := rfl
    have h1 : ("\n" : String).length = 1 := rfl
    have h0 : ("" : String).length = 0 := rfl
    omega
  constructor
  · intro e handler
    exact ⟨by simp [mainProc], by simp [mainProc], by simpa [mainProc] using hne e⟩
  · intro j handler e h
    exact ⟨by simp [mainProc, h], by simp [mainProc, h], by simpa [mainProc, h] using hne e⟩

/-- Witness for C7: a JSON parse failure and an exhausted-retries failure both
exit 1 with a diagnostic and an empty output stream. -/
theorem main_failure_surface_witness :
    (mainProc (.error "Expecting value") (fun _ => Except.ok Json.null)).exitCode ≠ 0 ∧
    (mainProc (.error "Expecting value") (fun _ => Except.ok Json.null)).outBytes = "" ∧
    (mainProc (.error "Expecting value") (fun _ => Except.ok Json.null)).errBytes ≠ "" ∧
    (mainProc (.ok Json.null) (fun _ => Except.error "All AI attempts failed")).outBytes = "" := by
  obtain ⟨a, b, c⟩ := main_failure_surface.1 "Expecting value" (fun _ => Except.ok Json.null)
  obtain ⟨_, b', _⟩ := main_failure_surface.2 Json.null
    (fun _ => Except.error "All AI attempts failed") "All AI attempts failed" rfl
  exact ⟨a, b, c, b'⟩

/-- With `exclude_none = false`, an optional field is always emitted, as an
explicit null when unset. -/
theorem dumpOptStr_false (k : String) (v : Option String) :
    dumpOptStr false k v = [(k, v.elim Json.null Json.str)] := by
  cases v <;> simp [dumpOptStr]

/-- C9: the build handler's returned mapping is the schema's full dump with
`exclude_none` set to False, so every schema field is present in the output
object and unset optional fields appear as explicit JSON nulls — unlike a dump
with `exclude_none` set to True, which would omit them. -/
theorem do_build_full_dump :
    (∀ m : Model, ∃ kvs, do_build_output m = Json.obj kvs ∧ keysOf kvs = ["cv", "letter"]) ∧
    (∀ l : LetterDoc, ∃ kvs, l.dump false = Json.obj kvs ∧
       keysOf kvs = ["sender", "recipient", "content", "metadata"]) ∧
    (∀ c : ContactInfo, ∃ kvs, c.dump false = Json.obj kvs ∧
       keysOf kvs = ["name", "email", "phone"] ∧
       (c.name = none → lookupKey "name" kvs = some Json.null) ∧
       (c.email = none → lookupKey "email" kvs = some Json.null) ∧
       (c.phone = none → lookupKey "phone" kvs = some Json.null)) ∧
    (∀ lc : LetterContent, ∃ kvs, lc.dump false = Json.obj kvs ∧
       keysOf kvs = ["salutation", "opening", "closing"] ∧
       (lc.salutation = none → lookupKey "salutation" kvs = some Json.null) ∧
       (lc.opening = none → lookupKey "opening" kvs = some Json.null) ∧
       (lc.closing = none → lookupKey "closing" kvs = some Json.null)) ∧
    (∀ c : ContactInfo, c.name = none →
       ∀ kvs, c.dump true = Json.obj kvs → lookupKey "name" kvs = none) := by
  refine ⟨fun m => ⟨_, rfl, rfl⟩, fun l => ⟨_, rfl, rfl⟩, fun c => ?_, fun lc => ?_, ?_⟩
  · obtain ⟨n, e, p⟩ := c
    refine ⟨_, rfl, ?_, ?_, ?_, ?_⟩ <;>
      cases n <;> cases e <;> cases p <;>
        simp [ContactInfo.dump, dumpOptStr_false, keysOf, lookupKey]
  · obtain ⟨sa, op, cl⟩ := lc
    refine ⟨_, rfl, ?_, ?_, ?_, ?_⟩ <;>
      cases sa <;> cases op <;> cases cl <;>
        simp [LetterContent.dump, dumpOptStr_false, keysOf, lookupKey]
  · rintro ⟨n, e, p⟩ hn kvs hkvs
    subst hn
    cases e <;> cases p <;>
      (simp [ContactInfo.dump, dumpOptStr] at hkvs; subst hkvs; simp [lookupKey])

/-- Witness for C9: a contact block with unset name and phone dumps all three
fields, the unset ones as nulls; the full model dump carries both aggregates. -/
theorem do_build_full_dump_witness :
    (∃ kvs, (ContactInfo.mk none (some "a@b.c") none).dump false = Json.obj kvs ∧
       keysOf kvs = ["name", "email", "phone"] ∧
       lookupKey "name" kvs = some Json.null ∧
       lookupKey "phone" kvs = some Json.null) ∧
    (∃ kvs, do_build_output
        ⟨⟨⟨none, none, none⟩, []⟩,
         ⟨⟨none, none, none⟩, ⟨none, none, none⟩, ⟨none, none, none⟩, ⟨none⟩⟩⟩ =
        Json.obj kvs ∧ keysOf kvs = ["cv", "letter"]) := by
  constructor
  · obtain ⟨kvs, h1, h2, h3, _, h5⟩ := do_build_full_dump.2.2.1 ⟨none, some "a@b.c", none⟩
    exact ⟨kvs, h1, h2, h3 rfl, h5 rfl⟩
  · exact do_build_full_dump.1 _

/-! ## Canonicalization: order-independence of the cache key -/

/-- Strict key order on pairs. -/
def keyLt (p q : String × Json) : Prop := p.1 < q.1

instance : IsAntisymm (String × Json) keyLt := ⟨fun _ _ h h' => (lt_asymm h h').elim⟩

/-- In a dict (unique keys), membership of a binding coincides with lookup. -/
theorem mem_iff_lookupKey : ∀ {R : Request}, (R.map Prod.fst).Nodup →
    ∀ (k : String) (v : Json), ((k, v) ∈ R ↔ lookupKey k R = some v)
  | [], _, k, v => by simp [lookupKey]
  | (k', v') :: rest, h, k, v => by
      rw [List.map_cons] at h
      obtain ⟨hk', htail⟩ := List.nodup_cons.mp h
      by_cases hkk : k = k'
      · subst hkk
        simp only [lookupKey, List.mem_cons, if_true]
        constructor
        · rintro (heq | hmem)
          · injection heq with h1 h2
            rw [h2]
          · exact absurd (List.mem_map_of_mem Prod.fst hmem) hk'
        · intro hsome
          injection hsome with h1
          exact Or.inl (by rw [h1])
      · simp only [lookupKey, List.mem_cons]
        rw [if_neg hkk, ← mem_iff_lookupKey htail k v]
        constructor
        · rintro (heq | hmem)
          · injection heq with ha hb
            exact absurd ha hkk
          · exact hmem
        · exact Or.inr

/-- Two dicts with equal lookups are permutations of each other. -/
theorem perm_of_lookup_eq {R R' : Request} (h : (R.map Prod.fst).Nodup)
    (h' : (R'.map Prod.fst).Nodup) (hl : ∀ k, lookupKey k R = lookupKey k R') :
    R.Perm R' := by
  rw [List.perm_ext_iff_of_nodup (List.Nodup.of_map _ h) (List.Nodup.of_map _ h')]
  intro a
  rw [show a = (a.1, a.2) from rfl, mem_iff_lookupKey h, mem_iff_lookupKey h', hl a.1]

/-- Sorting by key is canonical: two dicts equal as mappings sort to the same
field list. -/
theorem sortPairs_eq_of_lookup_eq {R R' : Request} (h : (R.map Prod.fst).Nodup)
    (h' : (R'.map Prod.fst).Nodup) (hl : ∀ k, lookupKey k R = lookupKey k R') :
    sortPairs R = sortPairs R' := by
  have hperm : (sortPairs R).Perm (sortPairs R') :=
    (List.perm_insertionSort keyLe R).trans
      ((perm_of_lookup_eq h h' hl).trans (List.perm_insertionSort keyLe R').symm)
  have hs1 : List.Sorted keyLe (sortPairs R) := List.sorted_insertionSort keyLe R
  have hs2 : List.Sorted keyLe (sortPairs R') := List.sorted_insertionSort keyLe R'
  have hn1 : ((sortPairs R).map Prod.fst).Nodup :=
    (((List.perm_insertionSort keyLe R).map Prod.fst).nodup_iff).mpr h
  have hn2 : ((sortPairs R').map Prod.fst).Nodup :=
    (((List.perm_insertionSort keyLe R').map Prod.fst).nodup_iff).mpr h'
  have hne1 : (sortPairs R).Pairwise (fun p q : String × Json => p.1 ≠ q.1) :=
    List.pairwise_map.mp hn1
  have hne2 : (sortPairs R').Pairwise (fun p q : String × Json => p.1 ≠ q.1) :=
    List.pairwise_map.mp hn2
  have hlt1 : List.Sorted keyLt (sortPairs R) :=
    (hs1.and hne1).imp fun hpq => lt_of_le_of_ne hpq.1 hpq.2
  have hlt2 : List.Sorted keyLt (sortPairs R') :=
    (hs2.and hne2).imp fun hpq => lt_of_le_of_ne hpq.1 hpq.2
  exact List.eq_of_perm_of_sorted hperm hlt1 hlt2

/-- Each hex word contributes 8 digits. -/
theorem hexWord_length (w : Nat) : (hexWord w).length = 8 := rfl

/-- Every digit emitted by `hexWord` is a lowercase hex character. -/
theorem mem_hexWord {c : Char} {w : Nat} (h : c ∈ hexWord w) : c ∈ hexChars := by
  simp only [hexWord, List.mem_cons, List.not_mem_nil, or_false] at h
  rcases h with rfl | rfl | rfl | rfl | rfl | rfl | rfl | rfl <;>
    (simp only [hexDigit]; exact List.get_mem _ _ _)

/-- The digest string always has 64 characters. -/
theorem sha256Hex_length (msg : List Nat) : (sha256Hex msg).length = 64 := by
  simp [sha256Hex, String.length, hexWord]

/-- Every character of the digest string is a lowercase hex digit. -/
theorem mem_sha256Hex {msg : List Nat} {c : Char} (h : c ∈ (sha256Hex msg).toList) :
    c ∈ hexChars := by
  simp only [sha256Hex, String.toList, String.mk, List.mem_append] at h
  rcases h with ((((((h | h) | h) | h) | h) | h) | h) | h <;> exact mem_hexWord h

/-- C6: `hash_input` is deterministic and order-independent — two requests
equal as key-value mappings, whatever their key insertion order, hash to the
same key — and every hash is a fixed-length 64-character string of lowercase
hexadecimal digits (a 256-bit digest). -/
theorem hash_input_deterministic :
    (∀ R R' : Request, (R.map Prod.fst).Nodup → (R'.map Prod.fst).Nodup →
       (∀ k, lookupKey k R = lookupKey k R') → hash_input R = hash_input R') ∧
    (∀ R : Request, (hash_input R).length = 64 ∧
       ∀ c ∈ (hash_input R).toList, c ∈ hexChars) := by
  constructor
  · intro R R' h h' hl
    unfold hash_input
    rw [sortPairs_eq_of_lookup_eq h h' hl]
  · intro R
    exact ⟨sha256Hex_length _, fun c hc => mem_sha256Hex hc⟩

/-- Witness for C6: the same two-field request in both insertion orders hashes
identically, and the hash has 64 characters. -/
theorem hash_input_deterministic_witness :
    hash_input [("b", Json.null), ("a", Json.bool true)] =
      hash_input [("a", Json.bool true), ("b", Json.null)] ∧
    (hash_input [("b", Json.null), ("a", Json.bool true)]).length = 64 := by
  constructor
  · apply hash_input_deterministic.1
    · decide
    · decide
    · intro k
      by_cases h1 : k = "b" <;> by_cases h2 : k = "a" <;> simp_all [lookupKey]
  · exact (hash_input_deterministic.2 _).1

/-- A provider that fails its first call and succeeds afterwards. -/
def flakyProvider : Nat → Except String Json :=
  fun i => if i = 0 then Except.error "flaky" else Except.ok Json.null

/-- The empty environment: both model variables unset. -/
def emptyEnv : Env := fun _ => none

/-- C1 counterexample: with a provider that fails its first attempt and
succeeds on the retry, the first call of the build handler already performs
two provider invocations (the retry loop of §4.3 runs inside the miss path),
so two calls with the same request perform two provider invocations in total —
not at most one as the claim states. -/
theorem build_cached_two_invocations :
    (build_cached emptyEnv flakyProvider []
        ((build_cached emptyEnv flakyProvider [] ([], 0)).2)).2.2 = 2 ∧
    ¬ ((build_cached emptyEnv flakyProvider []
        ((build_cached emptyEnv flakyProvider [] ([], 0)).2)).2.2 ≤ 1) := by
  have hatt : attemptModel (fun _ i => flakyProvider i) (PRIMARY_MODEL emptyEnv) 2 0 =
      (some Json.null, 2) := by
    simp [attemptModel, flakyProvider]
  have hrun : run_with_fallback emptyEnv (fun _ i => flakyProvider i) 0 =
      (.ok Json.null, 2) := by
    simp [run_with_fallback, runWithFallback, hatt]
  have h1 : build_cached emptyEnv flakyProvider [] ([], 0) =
      (.ok Json.null, ([(hash_input [], Json.null)], 2)) := by
    simp [build_cached, lookupKey, hrun, storeCache]
  have h2 : build_cached emptyEnv flakyProvider [] ([(hash_input [], Json.null)], 2) =
      (.ok Json.null, ([(hash_input [], Json.null)], 2)) := by
    simp [build_cached, lookupKey]
  rw [h1]
  show (build_cached emptyEnv flakyProvider [] ([(hash_input [], Json.null)], 2)).2.2 = 2 ∧
    ¬ ((build_cached emptyEnv flakyProvider [] ([(hash_input [], Json.null)], 2)).2.2 ≤ 1)
  rw [h2]
  exact ⟨rfl, by simp⟩

/-- C1 (amended): whenever the first call of the build handler succeeds, the
second call with the same request hits the cache, makes zero further provider
calls and returns the first call's result; and when the first call's provider
attempt succeeds immediately, the two calls together perform at most one
provider invocation in total. -/
theorem build_cached_idempotent :
    (∀ (env : Env) (provider : Nat → Except String Json) (req : Request)
       (cache : Cache) (calls : Nat) (v : Json),
       (build_cached env provider req (cache, calls)).1 = .ok v →
       build_cached env provider req ((build_cached env provider req (cache, calls)).2) =
         (.ok v, (build_cached env provider req (cache, calls)).2)) ∧
    (∀ (env : Env) (provider : Nat → Except String Json) (req : Request)
       (cache : Cache) (calls : Nat) (v : Json),
       provider calls = .ok v →
       (build_cached env provider req (cache, calls)).2.2 ≤ calls + 1 ∧
       (build_cached env provider req
         ((build_cached env provider req (cache, calls)).2)).2.2 ≤ calls + 1) := by
  constructor
  · intro env provider req cache calls v h
    cases hl : lookupKey (hash_input req) cache with
    | some entry =>
        have h1 : build_cached env provider req (cache, calls) = (.ok entry, (cache, calls)) := by
          simp [build_cached, hl]
        rw [h1] at h
        injection h with hv
        subst hv
        simp only [h1]
    | none =>
        rcases hr : run_with_fallback env (fun _ i => provider i) calls with ⟨res, c⟩
        cases res with
        | ok w =>
            have h1 : build_cached env provider req (cache, calls) =
                (.ok w, ((hash_input req, w) :: cache, c)) := by
              simp [build_cached, hl, hr, storeCache]
            rw [h1] at h
            injection h with hv
            subst hv
            have h2 : build_cached env provider req ((hash_input req, w) :: cache, c) =
                (.ok w, ((hash_input req, w) :: cache, c)) := by
              simp [build_cached, lookupKey]
            simp only [h1, h2]
        | error e =>
            have h1 : build_cached env provider req (cache, calls) =
                (.error e, (cache, c)) := by
              simp [build_cached, hl, hr]
            rw [h1] at h
            cases h
  · intro env provider req cache calls v hp
    cases hl : lookupKey (hash_input req) cache with
    | some entry =>
        have h1 : build_cached env provider req (cache, calls) = (.ok entry, (cache, calls)) := by
          simp [build_cached, hl]
        simp only [h1]
        exact ⟨by omega, by omega⟩
    | none =>
        have hrun : run_with_fallback env (fun _ i => provider i) calls = (.ok v, calls + 1) := by
          unfold run_with_fallback
          exact runWithFallback_firstOk _ _ _ 2 calls v (by omega) hp
        have h1 : build_cached env provider req (cache, calls) =
            (.ok v, ((hash_input req, v) :: cache, calls + 1)) := by
          simp [build_cached, hl, hrun, storeCache]
        have h2 : build_cached env provider req ((hash_input req, v) :: cache, calls + 1) =
            (.ok v, ((hash_input req, v) :: cache, calls + 1)) := by
          simp [build_cached, lookupKey]
        simp only [h1, h2]
        exact ⟨by omega, by omega⟩

/-- Witness for C1: a provider succeeding at once — the first call stores the
result after one invocation, the second call returns it from the cache with
the call counter still at one. -/
theorem build_cached_idempotent_witness :
    build_cached emptyEnv (fun _ => Except.ok (Json.bool true)) []
        ((build_cached emptyEnv (fun _ => Except.ok (Json.bool true)) [] ([], 0)).2) =
      (.ok (Json.bool true),
       (build_cached emptyEnv (fun _ => Except.ok (Json.bool true)) [] ([], 0)).2) ∧
    (build_cached emptyEnv (fun _ => Except.ok (Json.bool true)) [] ([], 0)).2.2 ≤ 1 := by
  constructor
  · exact build_cached_idempotent.1 emptyEnv (fun _ => Except.ok (Json.bool true))
      [] [] 0 (Json.bool true) rfl
  · exact (build_cached_idempotent.2 emptyEnv (fun _ => Except.ok (Json.bool true))
      [] [] 0 (Json.bool true) rfl).1
